import Mathlib

/-!
Verification of `src/migrate_vercel_to_cloudflare.py` against its specification.

The script is shallowly embedded as pure Lean functions.  Network effects are
made explicit: every HTTP call site takes the call's result (`Except ReqFailure _`)
as a parameter, where `ReqFailure.connError` models the request call raising
before any response object exists (Python `requests` transport failure) and
`ReqFailure.httpError` models `raise_for_status` raising on a received response.

String-valued JSON fields that the source only reads through Python truthiness
(`if not x`, `x or default`, `if x and y`) are modelled as `String`, with `""`
standing for both an absent key and an empty string — the source cannot tell
them apart.  Fields the source passes through verbatim into the output payload
(`buildCommand`, `outputDirectory`, the link's `org`/`repo`) are `Option String`
so that a JSON `null` stays distinguishable from `""`.
-/

namespace MoveToCF

/-- Source-control linkage object under the Vercel project's `link` key.
The source reads `link.get('type')`, `link.get('org')`, `link.get('repo')`. -/
structure VercelLink where
  type_ : String
  org : Option String
  repo : Option String
deriving DecidableEq

/-- Core project info returned by `GET /v9/projects/{id}` as read by the source
(`name`, `buildCommand`, `outputDirectory`, `rootDirectory`, `productionBranch`,
`framework`, `link`).  The `build` key is also read but never used. -/
structure VercelInfo where
  name : String
  buildCommand : Option String
  outputDirectory : Option String
  rootDirectory : String
  productionBranch : String
  framework : Option String
  link : Option VercelLink
deriving DecidableEq

/-- One entry of the `envs` array returned by `GET /v9/projects/{id}/env`;
the source reads `key`, `value`, `target` (a list of scope strings) and `type`. -/
structure EnvVar where
  key : String
  value : String
  target : List String
  type_ : String
deriving DecidableEq

/-- The aggregate built by `get_vercel_project_details`:
`{'info': ..., 'env_vars': ..., 'domains': ...}`. -/
structure SourceDetail where
  info : VercelInfo
  env_vars : List EnvVar
  domains : List String
deriving DecidableEq

/-- Python `x or d` on a string field where `""` models absent-or-empty. -/
def pyOr (s d : String) : String := if s = "" then d else s

/-- A Python dict of environment variables, modelled as the log of assignments
`m[k] = v` in program order; lookup prefers the latest assignment, which is
exactly the dict's key-to-value mapping. -/
abbrev EnvMap := List (String × String)

/-- Dict assignment `m[k] = v`. -/
def setVar (m : EnvMap) (k v : String) : EnvMap := m ++ [(k, v)]

/-- Dict lookup: the value of the latest assignment to `k`, if any. -/
def getVar : EnvMap → String → Option String
  | [], _ => none
  | (k0, v0) :: rest, k =>
    match getVar rest k with
    | some w => some w
    | none => if k0 = k then some v0 else none

/-- One iteration of the env-var loop of `create_cloudflare_pages_project`
(source lines 124-140): skip unless `var_name and var_value` are truthy, then
assign into the production dict when `'production' in targets` and into the
preview dict when `'preview' in targets`. -/
def envStep (acc : EnvMap × EnvMap) (v : EnvVar) : EnvMap × EnvMap :=
  if v.key ≠ "" ∧ v.value ≠ "" then
    ((if "production" ∈ v.target then setVar acc.1 v.key v.value else acc.1),
     (if "preview" ∈ v.target then setVar acc.2 v.key v.value else acc.2))
  else acc

/-- The whole env-var loop: fold `envStep` over the fetched `env_vars` in order,
starting from two empty dicts; first component is the production dict, second
the preview dict. -/
def envFanOut (vars : List EnvVar) : EnvMap × EnvMap := vars.foldl envStep ([], [])

/-- Specification-side characterisation of one scope's resulting map: the value
associated to key `k` is the value of the LAST variable in the sequence whose
key is `k`, whose key and value are non-empty, and whose `target` contains
`scope`; `none` when no such variable exists. -/
def lastContrib (scope k : String) : List EnvVar → Option String
  | [] => none
  | v :: rest =>
    match lastContrib scope k rest with
    | some w => some w
    | none =>
      if v.key = k ∧ v.key ≠ "" ∧ v.value ≠ "" ∧ scope ∈ v.target then some v.value
      else none

lemma getVar_append (m : EnvMap) (k0 v0 k : String) :
    getVar (m ++ [(k0, v0)]) k = if k0 = k then some v0 else getVar m k := by
  induction m with
  | nil =>
    simp only [List.nil_append, getVar]
  | cons a m ih =>
    obtain ⟨a1, a2⟩ := a
    rw [List.cons_append]
    simp only [getVar]
    rw [ih]
    by_cases h : k0 = k
    · simp [h]
    · simp only [if_neg h]

lemma envFold_prod_getVar (vars : List EnvVar) :
    ∀ (acc : EnvMap × EnvMap) (k : String),
      getVar (vars.foldl envStep acc).1 k
        = match lastContrib "production" k vars with
          | some w => some w
          | none => getVar acc.1 k := by
  induction vars with
  | nil => intro acc k; simp [lastContrib]
  | cons v vs ih =>
    intro acc k
    rw [List.foldl_cons, ih]
    cases hl : lastContrib "production" k vs with
    | some w => simp [lastContrib, hl]
    | none =>
      simp only [lastContrib, hl]
      by_cases hc : v.key = k ∧ v.key ≠ "" ∧ v.value ≠ "" ∧ "production" ∈ v.target
      · rw [if_pos hc]
        obtain ⟨h1, h2, h3, h4⟩ := hc
        subst h1
        simp [envStep, h2, h3, h4, setVar, getVar_append]
      · rw [if_neg hc]
        by_cases hg : v.key ≠ "" ∧ v.value ≠ ""
        · by_cases hp : "production" ∈ v.target
          · have hk : ¬ v.key = k := fun h => hc ⟨h, hg.1, hg.2, hp⟩
            simp [envStep, hg, hp, setVar, getVar_append, hk]
          · simp [envStep, hg, hp]
        · simp [envStep, hg]

lemma envFold_prev_getVar (vars : List EnvVar) :
    ∀ (acc : EnvMap × EnvMap) (k : String),
      getVar (vars.foldl envStep acc).2 k
        = match lastContrib "preview" k vars with
          | some w => some w
          | none => getVar acc.2 k := by
  induction vars with
  | nil => intro acc k; simp [lastContrib]
  | cons v vs ih =>
    intro acc k
    rw [List.foldl_cons, ih]
    cases hl : lastContrib "preview" k vs with
    | some w => simp [lastContrib, hl]
    | none =>
      simp only [lastContrib, hl]
      by_cases hc : v.key = k ∧ v.key ≠ "" ∧ v.value ≠ "" ∧ "preview" ∈ v.target
      · rw [if_pos hc]
        obtain ⟨h1, h2, h3, h4⟩ := hc
        subst h1
        simp [envStep, h2, h3, h4, setVar, getVar_append]
      · rw [if_neg hc]
        by_cases hg : v.key ≠ "" ∧ v.value ≠ ""
        · by_cases hp : "preview" ∈ v.target
          · have hk : ¬ v.key = k := fun h => hc ⟨h, hg.1, hg.2, hp⟩
            simp [envStep, hg, hp, setVar, getVar_append, hk]
          · simp [envStep, hg, hp]
        · simp [envStep, hg]

lemma envFanOut_prod_getVar (vars : List EnvVar) (k : String) :
    getVar (envFanOut vars).1 k = lastContrib "production" k vars := by
  have h := envFold_prod_getVar vars ([], []) k
  cases hc : lastContrib "production" k vars <;>
    simp only [hc, getVar] at h <;> simpa [envFanOut] using h

lemma envFanOut_prev_getVar (vars : List EnvVar) (k : String) :
    getVar (envFanOut vars).2 k = lastContrib "preview" k vars := by
  have h := envFold_prev_getVar vars ([], []) k
  cases hc : lastContrib "preview" k vars <;>
    simp only [hc, getVar] at h <;> simpa [envFanOut] using h

/-- The Cloudflare `build_config` object built at source lines 111-117. -/
structure BuildConfig where
  build_command : Option String
  output_dir : Option String
  root_dir : String
  web_analytics_tag : Option String
  web_analytics_token : Option String
deriving DecidableEq

/-- The `source.config` object of the creation payload (source lines 157-163). -/
structure CfSourceConfig where
  owner : Option String
  repo_name : Option String
  production_branch : String
  pr_comments_enabled : Bool
  deployments_enabled : Bool
deriving DecidableEq

/-- The `source` object of the creation payload (source lines 155-164). -/
structure CfSource where
  type_ : String
  config : CfSourceConfig
deriving DecidableEq

/-- One deployment environment's block inside `deployment_configs`. -/
structure CfEnvBlock where
  environment_variables : EnvMap
deriving DecidableEq

/-- The `deployment_configs` object (source lines 165-172). -/
structure CfDeploymentConfigs where
  preview : CfEnvBlock
  production : CfEnvBlock
deriving DecidableEq

/-- The full Cloudflare Pages creation payload (source lines 151-173). -/
structure CfPayload where
  name : String
  production_branch : String
  build_config : BuildConfig
  source : CfSource
  deployment_configs : CfDeploymentConfigs
deriving DecidableEq

/-- Why `create_cloudflare_pages_project` returns `None` before issuing the POST:
the name guard at lines 96-99 (the spec's `MappingError`) or the repo-link guard
at lines 145-149 (the spec's ineligibility skip). -/
inductive SkipReason
  | missingName
  | notGithub
deriving DecidableEq

/-- The payload dict literal of source lines 151-173, for a detail that passed
both guards with link object `repo`. -/
def mkPayload (d : SourceDetail) (repo : VercelLink) : CfPayload :=
  { name := d.info.name
  , production_branch := pyOr d.info.productionBranch "main"
  , build_config :=
      { build_command := d.info.buildCommand
      , output_dir := d.info.outputDirectory
      , root_dir := pyOr d.info.rootDirectory "/"
      , web_analytics_tag := none
      , web_analytics_token := none }
  , source :=
      { type_ := "github"
      , config :=
          { owner := repo.org
          , repo_name := repo.repo
          , production_branch := pyOr d.info.productionBranch "main"
          , pr_comments_enabled := true
          , deployments_enabled := true } }
  , deployment_configs :=
      { preview := { environment_variables := (envFanOut d.env_vars).2 }
      , production := { environment_variables := (envFanOut d.env_vars).1 } } }

/-- The pure payload-construction part of `create_cloudflare_pages_project`
(source lines 91-173): the `if not project_name` guard, then the
`if not repo_info or repo_info.get('type') != 'github'` guard, then the payload. -/
def buildCfPayload (d : SourceDetail) : Except SkipReason CfPayload :=
  if d.info.name = "" then .error .missingName
  else
    match d.info.link with
    | none => .error .notGithub
    | some repo =>
      if repo.type_ = "github" then .ok (mkPayload d repo)
      else .error .notGithub

/-- A project summary as consumed by `main` from the Lister's output:
`project.get('id')` and `project.get('name')`, with `""` for an absent key. -/
structure Project where
  id : String
  name : String
deriving DecidableEq

/-- One page of `GET /v9/projects`: the `projects` array and the optional
`pagination.next` cursor. -/
structure Page where
  projects : List Project
  next : Option String
deriving DecidableEq

/-- Outcome of one HTTP call.  `connError` is a `RequestException` raised by the
call itself, before any response object exists; `httpError` is the exception
raised by `response.raise_for_status()` on a received non-2xx response. -/
inductive ReqFailure
  | connError
  | httpError (status : Nat) (text : String)
deriving DecidableEq

/-- What `get_vercel_projects` does overall: return the project list, return
`None`, or die with an uncaught `NameError` because the except handler at lines
34-39 read the local `response` before any assignment to it. -/
inductive ListerResult
  | finished (projects : List Project)
  | failed
  | crashed
  | starved
deriving DecidableEq

/-- The `while url` loop of `get_vercel_projects` (source lines 21-39), driven
by the stream of responses to its successive page requests.  `bound` records
whether the local `response` has been assigned by an earlier iteration: on a
`connError` the handler reads `response`, which raises `NameError` when it is
still unbound (`crashed`) and otherwise completes and returns `None` (`failed`);
an `httpError` binds `response` first, so the handler always completes.
`starved` is a model artifact for a stream that ends while a next cursor is
still pending; every theorem below supplies a response for each request made. -/
def listerLoop (acc : List Project) (bound : Bool) :
    List (Except ReqFailure Page) → ListerResult
  | [] => .starved
  | .error .connError :: _ => if bound then .failed else .crashed
  | .error (.httpError _ _) :: _ => .failed
  | .ok p :: rest =>
    match p.next with
    | none => .finished (acc ++ p.projects)
    | some _ => listerLoop (acc ++ p.projects) true rest

/-- `get_vercel_projects`, as a function of the responses its page requests get. -/
def getVercelProjects (responses : List (Except ReqFailure Page)) : ListerResult :=
  listerLoop [] false responses

/-- `get_vercel_project_details` (source lines 42-81), as a function of the
results of its three requests: core info failure returns `None`; an env-var or
domain failure degrades that field to `[]` and aggregation proceeds. -/
def getVercelProjectDetails (infoR : Except ReqFailure VercelInfo)
    (envR : Except ReqFailure (List EnvVar)) (domR : Except ReqFailure (List String)) :
    Option SourceDetail :=
  match infoR with
  | .error _ => none
  | .ok i => some { info := i, env_vars := envR.toOption.getD [], domains := domR.toOption.getD [] }

/-- The `result` object of a successful Cloudflare creation response, as read at
source lines 181-184 (`result.get('result', {}).get('name')` / `'subdomain'`). -/
structure CfHandle where
  name : Option String
  subdomain : Option String
deriving DecidableEq

/-- A parsed Cloudflare creation response body. -/
structure CfResp where
  result : Option CfHandle
deriving DecidableEq

/-- What `create_cloudflare_pages_project` does overall. -/
inductive CreateResult
  | skipped (r : SkipReason)
  | created (h : Option CfHandle)
  | failedHttp (status : Nat) (text : String)
  | crashed
deriving DecidableEq

/-- `create_cloudflare_pages_project` (source lines 83-190) as a function of the
detail and of the POST's result.  On a `connError` the except handler at lines
185-190 reads the never-assigned local `response` and raises `NameError`
(`crashed`); on an `httpError` the handler completes and the function returns
`None` (`failedHttp`). -/
def createCloudflareProject (d : SourceDetail) (post : Except ReqFailure CfResp) :
    CreateResult :=
  match buildCfPayload d with
  | .error r => .skipped r
  | .ok _ =>
    match post with
    | .ok resp => .created resp.result
    | .error (.httpError s t) => .failedHttp s t
    | .error .connError => .crashed

/-- The eligibility test of `main` (source line 227):
`project_details.get('info', {}).get('link', {}).get('type') == 'github'`. -/
def isEligible (d : SourceDetail) : Bool :=
  match d.info.link with
  | some l => l.type_ == "github"
  | none => false

instance exceptDecEq {ε α : Type} [DecidableEq ε] [DecidableEq α] :
    DecidableEq (Except ε α) := fun a b =>
  match a, b with
  | .ok x, .ok y =>
    if h : x = y then isTrue (by rw [h]) else isFalse (fun hh => h (Except.ok.inj hh))
  | .error x, .error y =>
    if h : x = y then isTrue (by rw [h]) else isFalse (fun hh => h (Except.error.inj hh))
  | .ok _, .error _ => isFalse (fun hh => Except.noConfusion hh)
  | .error _, .ok _ => isFalse (fun hh => Except.noConfusion hh)

/-- One identifier of a bulk run, bundling the summary fields `main` reads with
the results of the network calls made for that project: the three detail
requests and, if a POST is issued, its result. -/
structure ProjectRun where
  id : String
  pname : String
  infoR : Except ReqFailure VercelInfo
  envR : Except ReqFailure (List EnvVar)
  domR : Except ReqFailure (List String)
  post : Except ReqFailure CfResp
deriving DecidableEq

/-- How one iteration of `main`'s bulk loop (source lines 216-233) ends for its
project. -/
inductive Outcome
  | skippedNoId
  | skippedFetchFailed
  | skippedIneligible
  | createResult (r : CreateResult)
deriving DecidableEq

/-- One iteration of `main`'s bulk loop: skip on missing id, skip on detail
fetch failure, skip when not GitHub-linked, otherwise call the creator. -/
def processOne (p : ProjectRun) : Outcome :=
  if p.id = "" then .skippedNoId
  else
    match getVercelProjectDetails p.infoR p.envR p.domR with
    | none => .skippedFetchFailed
    | some d =>
      if isEligible d then .createResult (createCloudflareProject d p.post)
      else .skippedIneligible

/-- How a bulk run ends: `finished` when the loop reached its end, `crashed`
when an iteration raised an uncaught `NameError` (in which case the remaining
identifiers are never processed); either carries the outcomes recorded so far. -/
inductive RunResult
  | finished (os : List Outcome)
  | crashed (os : List Outcome)
deriving DecidableEq

/-- `main`'s bulk loop over the enumerated projects: per-project failures are
per-project, but a `NameError` from the creator propagates and aborts the run. -/
def processAll : List ProjectRun → RunResult
  | [] => .finished []
  | p :: rest =>
    if processOne p = .createResult .crashed then .crashed []
    else
      match processAll rest with
      | .finished os => .finished (processOne p :: os)
      | .crashed os => .crashed (processOne p :: os)

/-- The outcome list a run produced, however it ended. -/
def outcomesOf : RunResult → List Outcome
  | .finished os => os
  | .crashed os => os

/-- Outcome classifiers for the spec's four summary categories. -/
def isCreatedOutcome : Outcome → Bool
  | .createResult (.created _) => true
  | _ => false

def isSkippedIneligibleOutcome : Outcome → Bool
  | .skippedIneligible => true
  | _ => false

def isSkippedErrorOutcome : Outcome → Bool
  | .skippedNoId => true
  | .skippedFetchFailed => true
  | .createResult (.skipped _) => true
  | _ => false

def isFailedCreationOutcome : Outcome → Bool
  | .createResult (.failedHttp _ _) => true
  | _ => false

/-- The counts of created, skipped-ineligible, skipped-error and failed-creation
outcomes of a run — the summary the spec says the orchestrator yields. -/
def countsOf (os : List Outcome) : Nat × Nat × Nat × Nat :=
  (os.countP isCreatedOutcome, os.countP isSkippedIneligibleOutcome,
   os.countP isSkippedErrorOutcome, os.countP isFailedCreationOutcome)

/-- The only thing `main` emits after its bulk loop (source line 235). -/
def migrationFinishedMessage : String := "Migration process finished."

/-- What `main` reports after the last identifier: the constant completion line.
No outcome data flows into it in the source, which this constant function
records faithfully. -/
def postLoopReport : List Outcome → List String :=
  fun _ => [migrationFinishedMessage]

/-! ### Concrete fixtures used by witnesses and counterexamples -/

/-- A GitHub link object. -/
def ghLink : VercelLink := { type_ := "github", org := some "acme", repo := some "web" }

/-- A GitLab link object (unsupported provider). -/
def glLink : VercelLink := { type_ := "gitlab", org := some "acme", repo := some "web" }

/-- Env var scoped to both production and preview. -/
def evBoth : EnvVar :=
  { key := "API_KEY", value := "k1", target := ["production", "preview"], type_ := "plain" }

/-- Env var scoped only to development. -/
def evDev : EnvVar :=
  { key := "DEBUG", value := "1", target := ["development"], type_ := "plain" }

/-- A later production-scoped env var duplicating the key of `evBoth`. -/
def evProdLater : EnvVar :=
  { key := "API_KEY", value := "k2", target := ["production"], type_ := "encrypted" }

/-- Env var with an empty value. -/
def evEmptyVal : EnvVar :=
  { key := "EMPTY", value := "", target := ["production"], type_ := "plain" }

/-- Core info of a well-formed GitHub-linked project with absent
`rootDirectory` and absent `productionBranch`. -/
def infoA : VercelInfo :=
  { name := "alpha", buildCommand := some "npm run build", outputDirectory := some "dist"
  , rootDirectory := "", productionBranch := "", framework := some "nextjs"
  , link := some ghLink }

/-- Core info of a GitLab-linked project. -/
def infoGl : VercelInfo :=
  { name := "beta", buildCommand := none, outputDirectory := none
  , rootDirectory := "packages/site", productionBranch := "trunk", framework := none
  , link := some glLink }

/-- An eligible detail with a representative env-var sequence. -/
def detailA : SourceDetail :=
  { info := infoA, env_vars := [evBoth, evDev, evProdLater, evEmptyVal], domains := [] }

/-- The same detail with its name missing. -/
def detailNoName : SourceDetail :=
  { info := { infoA with name := "" }, env_vars := [evBoth], domains := [] }

/-- An ineligible (GitLab-linked) detail. -/
def detailGl : SourceDetail := { info := infoGl, env_vars := [], domains := [] }

/-- A successful Cloudflare creation response. -/
def respOk : CfResp := { result := some { name := some "alpha", subdomain := some "alpha.pages.dev" } }

/-- A run whose project is created successfully. -/
def runGood : ProjectRun :=
  { id := "prj_1", pname := "alpha", infoR := .ok infoA, envR := .ok [evBoth]
  , domR := .ok [], post := .ok respOk }

/-- A run whose project is not GitHub-linked. -/
def runIneligible : ProjectRun :=
  { id := "prj_2", pname := "beta", infoR := .ok infoGl, envR := .ok []
  , domR := .ok [], post := .ok respOk }

/-- A run whose creation POST fails at the transport level before any response
is received. -/
def runCrash : ProjectRun :=
  { id := "prj_3", pname := "gamma", infoR := .ok infoA, envR := .ok []
  , domR := .ok [], post := .error .connError }

/-- Listing fixtures. -/
def prjA : Project := { id := "prj_1", name := "alpha" }

def prjB : Project := { id := "prj_2", name := "beta" }

def pageOne : Page := { projects := [prjA], next := some "1699000000000" }

def pageLast : Page := { projects := [prjB], next := none }

/-! ### Claim theorems -/

lemma buildCfPayload_ok_inv (d : SourceDetail) (pl : CfPayload)
    (h : buildCfPayload d = .ok pl) :
    ∃ repo, d.info.link = some repo ∧ repo.type_ = "github" ∧ d.info.name ≠ ""
      ∧ pl = mkPayload d repo := by
  by_cases hn : d.info.name = ""
  · simp [buildCfPayload, hn] at h
  · cases hl : d.info.link with
    | none => simp [buildCfPayload, hn, hl] at h
    | some repo =>
      by_cases ht : repo.type_ = "github"
      · refine ⟨repo, rfl, ht, hn, ?_⟩
        simp [buildCfPayload, hn, hl, ht] at h
        exact h.symm
      · simp [buildCfPayload, hn, hl, ht] at h

/-- C1: for every detail accepted by the transform (non-empty name, GitHub
link), each output environment map agrees, at every key, with the in-order
fold of the env-var sequence: a variable contributes only when key and value
are non-empty, it lands in the production map when `production` is among its
scopes and in the preview map when `preview` is (both maps when both are),
development-only variables land in neither, and at a duplicated key within one
scope the later variable wins.  `lastContrib` states exactly that resulting
mapping. -/
theorem env_fanout_maps_spec (d : SourceDetail) (pl : CfPayload) (k : String)
    (h : buildCfPayload d = .ok pl) :
    getVar pl.deployment_configs.production.environment_variables k
        = lastContrib "production" k d.env_vars
    ∧ getVar pl.deployment_configs.preview.environment_variables k
        = lastContrib "preview" k d.env_vars := by
  obtain ⟨repo, _, _, _, hpl⟩ := buildCfPayload_ok_inv d pl h
  subst hpl
  exact ⟨envFanOut_prod_getVar d.env_vars k, envFanOut_prev_getVar d.env_vars k⟩

/-- Witness for C1 at a concrete detail: `API_KEY` is set twice for production
(`k1` then `k2`) and once for preview (`k1`); the later value wins in the
production map, a development-only variable and a variable with empty value
contribute to neither map. -/
theorem env_fanout_maps_spec_witness :
    (getVar ((mkPayload detailA ghLink).deployment_configs.production.environment_variables)
          "API_KEY" = lastContrib "production" "API_KEY" detailA.env_vars
      ∧ getVar ((mkPayload detailA ghLink).deployment_configs.preview.environment_variables)
          "API_KEY" = lastContrib "preview" "API_KEY" detailA.env_vars)
    ∧ lastContrib "production" "API_KEY" detailA.env_vars = some "k2"
    ∧ lastContrib "preview" "API_KEY" detailA.env_vars = some "k1"
    ∧ lastContrib "production" "DEBUG" detailA.env_vars = none
    ∧ lastContrib "preview" "DEBUG" detailA.env_vars = none
    ∧ lastContrib "production" "EMPTY" detailA.env_vars = none :=
  ⟨env_fanout_maps_spec detailA (mkPayload detailA ghLink) "API_KEY" (by decide),
   by decide, by decide, by decide, by decide, by decide⟩

/-- C2: a detail is eligible exactly when its link object exists and its type
is the string "github"; and in the bulk loop an ineligible project (with a
usable id and a fetched detail) ends as the skipped-ineligible outcome, which
is neither a creation nor an error outcome. -/
theorem eligibility_iff_github :
    (∀ d : SourceDetail, isEligible d = true ↔
        ∃ l, d.info.link = some l ∧ l.type_ = "github")
    ∧ (∀ (p : ProjectRun) (d : SourceDetail), p.id ≠ "" →
        getVercelProjectDetails p.infoR p.envR p.domR = some d →
        isEligible d = false → processOne p = .skippedIneligible) := by
  constructor
  · intro d
    constructor
    · intro h
      cases hl : d.info.link with
      | none => simp [isEligible, hl] at h
      | some l =>
        refine ⟨l, rfl, ?_⟩
        simp [isEligible, hl] at h
        exact h
    · rintro ⟨l, hl, ht⟩
      simp [isEligible, hl, ht]
  · intro p d hid hfetch hinelig
    simp [processOne, hid, hfetch, hinelig]

/-- Witness for C2: a GitHub-linked detail is eligible; a GitLab-linked run is
reported skipped-ineligible. -/
theorem eligibility_iff_github_witness :
    isEligible detailA = true ∧ processOne runIneligible = .skippedIneligible :=
  ⟨(eligibility_iff_github.1 detailA).mpr ⟨ghLink, rfl, rfl⟩,
   eligibility_iff_github.2 runIneligible detailGl (by decide) (by decide) (by decide)⟩

/-- C3: payload construction fails with the missing-name error exactly when the
detail's name is empty or absent (both modelled by `""`), and for an eligible
detail with a non-empty name it never fails.  The only other early return of
the source, the repo-link guard, is the spec's ineligibility skip and carries
the distinct reason `notGithub`. -/
theorem mapping_error_iff_missing_name (d : SourceDetail) :
    (buildCfPayload d = .error .missingName ↔ d.info.name = "")
    ∧ (d.info.name ≠ "" → isEligible d = true → ∃ pl, buildCfPayload d = .ok pl) := by
  constructor
  · constructor
    · intro h
      by_cases hn : d.info.name = ""
      · exact hn
      · exfalso
        cases hl : d.info.link with
        | none => simp [buildCfPayload, hn, hl] at h
        | some repo =>
          by_cases ht : repo.type_ = "github"
          · simp [buildCfPayload, hn, hl, ht] at h
          · simp [buildCfPayload, hn, hl, ht] at h
    · intro hn
      simp [buildCfPayload, hn]
  · intro hn he
    cases hl : d.info.link with
    | none => simp [isEligible, hl] at he
    | some l =>
      have ht : l.type_ = "github" := by
        simp [isEligible, hl] at he
        exact he
      exact ⟨mkPayload d l, by simp [buildCfPayload, hn, hl, ht]⟩

/-- Witness for C3: a nameless detail yields the missing-name error; the
eligible named detail yields a payload. -/
theorem mapping_error_iff_missing_name_witness :
    buildCfPayload detailNoName = .error .missingName
    ∧ ∃ pl, buildCfPayload detailA = .ok pl :=
  ⟨(mapping_error_iff_missing_name detailNoName).1.mpr rfl,
   (mapping_error_iff_missing_name detailA).2 (by decide) (by decide)⟩

/-- C4 counterexample: the claim says the payload's source type is
"git-provider", but on a concrete eligible detail the code produces the source
type "github". -/
theorem source_type_not_git_provider :
    buildCfPayload detailA = .ok (mkPayload detailA ghLink)
    ∧ (mkPayload detailA ghLink).source.type_ = "github"
    ∧ ¬ (mkPayload detailA ghLink).source.type_ = "git-provider" :=
  ⟨by decide, rfl, by decide⟩

/-- C4 as amended: for every eligible detail with non-empty name, the payload's
source field has type "github" (the code's constant, not the claimed
"git-provider"), owner equal to the link object's `org` field (the spec's
`link.owner`), repo name equal to the link's `repo`, and its config carries the
possibly-defaulted production branch. -/
theorem source_field_mapping (d : SourceDetail) (pl : CfPayload) (repo : VercelLink)
    (h : buildCfPayload d = .ok pl) (hl : d.info.link = some repo) :
    pl.source.type_ = "github"
    ∧ pl.source.config.owner = repo.org
    ∧ pl.source.config.repo_name = repo.repo
    ∧ pl.source.config.production_branch = pyOr d.info.productionBranch "main" := by
  obtain ⟨r, hl2, ht, hn, hpl⟩ := buildCfPayload_ok_inv d pl h
  rw [hl] at hl2
  obtain rfl : repo = r := Option.some.inj hl2
  subst hpl
  exact ⟨rfl, rfl, rfl, rfl⟩

/-- Witness for C4's amended theorem at the concrete eligible detail. -/
theorem source_field_mapping_witness :
    (mkPayload detailA ghLink).source.type_ = "github"
    ∧ (mkPayload detailA ghLink).source.config.owner = ghLink.org
    ∧ (mkPayload detailA ghLink).source.config.repo_name = ghLink.repo
    ∧ (mkPayload detailA ghLink).source.config.production_branch
        = pyOr detailA.info.productionBranch "main" :=
  source_field_mapping detailA (mkPayload detailA ghLink) ghLink (by decide) rfl

/-- C5: when the source production branch is absent or empty both the top-level
and the source-config production branch default to "main"; when the source root
directory is absent or empty the build config's root dir defaults to "/"; and
the build command and output directory are passed through verbatim. -/
theorem defaults_and_passthrough (d : SourceDetail) (pl : CfPayload)
    (h : buildCfPayload d = .ok pl) :
    (d.info.productionBranch = "" →
      pl.production_branch = "main" ∧ pl.source.config.production_branch = "main")
    ∧ (d.info.rootDirectory = "" → pl.build_config.root_dir = "/")
    ∧ pl.build_config.build_command = d.info.buildCommand
    ∧ pl.build_config.output_dir = d.info.outputDirectory := by
  obtain ⟨repo, _, _, _, hpl⟩ := buildCfPayload_ok_inv d pl h
  subst hpl
  refine ⟨fun hb => ⟨?_, ?_⟩, fun hr => ?_, rfl, rfl⟩
  · simp [mkPayload, pyOr, hb]
  · simp [mkPayload, pyOr, hb]
  · simp [mkPayload, pyOr, hr]

/-- Witness for C5 at a concrete detail with absent production branch and
absent root directory. -/
theorem defaults_and_passthrough_witness :
    ((mkPayload detailA ghLink).production_branch = "main"
      ∧ (mkPayload detailA ghLink).source.config.production_branch = "main")
    ∧ (mkPayload detailA ghLink).build_config.root_dir = "/"
    ∧ (mkPayload detailA ghLink).build_config.build_command = detailA.info.buildCommand
    ∧ (mkPayload detailA ghLink).build_config.output_dir = detailA.info.outputDirectory := by
  have h := defaults_and_passthrough detailA (mkPayload detailA ghLink) (by decide)
  exact ⟨h.1 rfl, h.2.1 rfl, h.2.2.1, h.2.2.2⟩

/-- C6, code-bug evaluation: when every page request succeeds the listing is
the in-order concatenation of the pages, and a failure on a later page
discards all fetched pages (returns nothing, `failed`); but on the very first
page a transport-level failure does NOT return no results — the except handler
reads the unbound local `response` and the function dies with `NameError`
(`crashed`), contradicting the claim's all-or-nothing contract. -/
theorem lister_all_or_nothing_eval :
    getVercelProjects [.error .connError] = .crashed
    ∧ getVercelProjects [.ok pageOne, .ok pageLast]
        = .finished (pageOne.projects ++ pageLast.projects)
    ∧ getVercelProjects [.ok pageOne, .error .connError] = .failed
    ∧ getVercelProjects [.ok pageOne, .error (.httpError 500 "server error")] = .failed :=
  ⟨by decide, by decide, by decide, by decide⟩

/-- C7: the detail aggregation fails exactly when the core-info request fails;
when core info succeeds, the detail is returned with `info` populated, and a
failed env-var fetch (resp. domain fetch) degrades just that field to the empty
sequence — both fields are always present as sequences. -/
theorem detail_aggregation_partial_failure (i : VercelInfo)
    (envR : Except ReqFailure (List EnvVar)) (domR : Except ReqFailure (List String))
    (e : ReqFailure) :
    getVercelProjectDetails (.error e) envR domR = none
    ∧ getVercelProjectDetails (.ok i) envR domR
        = some { info := i, env_vars := envR.toOption.getD []
               , domains := domR.toOption.getD [] }
    ∧ getVercelProjectDetails (.ok i) (.error e) domR
        = some { info := i, env_vars := [], domains := domR.toOption.getD [] }
    ∧ getVercelProjectDetails (.ok i) envR (.error e)
        = some { info := i, env_vars := envR.toOption.getD [], domains := [] } :=
  ⟨rfl, rfl, rfl, rfl⟩

/-- C8 counterexample: a transport-level failure of the first project's
creation POST aborts the whole bulk run (the second identifier is never
processed), refuting "never aborts on a per-project error"; and two runs whose
outcome counts differ produce the identical post-loop report (the constant
completion line), so what the orchestrator yields after the last identifier is
not a summary of the counts. -/
theorem orchestrator_no_summary_and_abort :
    processAll [runCrash, runGood] = .crashed []
    ∧ countsOf (outcomesOf (processAll [runGood, runIneligible]))
        ≠ countsOf (outcomesOf (processAll [runGood, runGood]))
    ∧ postLoopReport (outcomesOf (processAll [runGood, runIneligible]))
        = postLoopReport (outcomesOf (processAll [runGood, runGood])) :=
  ⟨by decide, by decide, rfl⟩

/-- C8 as amended: provided no project's creation POST fails at the transport
level (the corner in which the unbound-`response` handler crashes the run),
the bulk loop processes every identifier in order — one outcome per
identifier, never aborting on fetch failure, ineligibility, mapping skip or
HTTP-level creation failure — and after the last identifier it emits only the
fixed completion message, with no count summary. -/
theorem orchestrator_processes_all (runs : List ProjectRun)
    (h : ∀ p ∈ runs, processOne p ≠ .createResult .crashed) :
    processAll runs = .finished (runs.map processOne)
    ∧ (runs.map processOne).length = runs.length
    ∧ postLoopReport (runs.map processOne) = [migrationFinishedMessage] := by
  have main : ∀ rs : List ProjectRun,
      (∀ p ∈ rs, processOne p ≠ Outcome.createResult .crashed) →
      processAll rs = .finished (rs.map processOne) := by
    intro rs
    induction rs with
    | nil => intro _; rfl
    | cons p rest ih =>
      intro hh
      have hp := hh p (List.mem_cons_self p rest)
      have hr := ih (fun q hq => hh q (List.mem_cons_of_mem p hq))
      have hstep : processAll (p :: rest)
          = if processOne p = Outcome.createResult .crashed then .crashed []
            else
              match processAll rest with
              | .finished os => .finished (processOne p :: os)
              | .crashed os => .crashed (processOne p :: os) := rfl
      rw [hstep, if_neg hp, hr]
      rfl
  exact ⟨main runs h, List.length_map _ _, rfl⟩

/-- Witness for C8's amended theorem on a concrete crash-free run. -/
theorem orchestrator_processes_all_witness :
    processAll [runGood, runIneligible]
        = .finished ([runGood, runIneligible].map processOne)
    ∧ (([runGood, runIneligible] : List ProjectRun).map processOne).length
        = ([runGood, runIneligible] : List ProjectRun).length
    ∧ postLoopReport (([runGood, runIneligible] : List ProjectRun).map processOne)
        = [migrationFinishedMessage] :=
  orchestrator_processes_all [runGood, runIneligible] (by decide)

/-- C9: both except handlers that read the local `response` are not total.  A
transport-level failure of the very first page request, and of the creation
POST, crashes the respective operation with `NameError` instead of its
documented `None` return; when `response` is bound (a later page, or an HTTP
error on a received response) the handler completes and the documented failure
value is returned. -/
theorem unbound_response_crashes :
    getVercelProjects [.error .connError] = ListerResult.crashed
    ∧ getVercelProjects [.ok pageOne, .error .connError] = .failed
    ∧ createCloudflareProject detailA (.error .connError) = .crashed
    ∧ createCloudflareProject detailA (.error (.httpError 400 "bad request"))
        = .failedHttp 400 "bad request" :=
  ⟨by decide, by decide, by decide, by decide⟩

/-- C10: every constructed payload carries the input-independent constants
`pr_comments_enabled = true`, `deployments_enabled = true`, and null
`web_analytics_tag` and `web_analytics_token`. -/
theorem constant_payload_fields (d : SourceDetail) (pl : CfPayload)
    (h : buildCfPayload d = .ok pl) :
    pl.source.config.pr_comments_enabled = true
    ∧ pl.source.config.deployments_enabled = true
    ∧ pl.build_config.web_analytics_tag = none
    ∧ pl.build_config.web_analytics_token = none := by
  obtain ⟨repo, _, _, _, hpl⟩ := buildCfPayload_ok_inv d pl h
  subst hpl
  exact ⟨rfl, rfl, rfl, rfl⟩

/-- Witness for C10 at the concrete eligible detail. -/
theorem constant_payload_fields_witness :
    (mkPayload detailA ghLink).source.config.pr_comments_enabled = true
    ∧ (mkPayload detailA ghLink).source.config.deployments_enabled = true
    ∧ (mkPayload detailA ghLink).build_config.web_analytics_tag = none
    ∧ (mkPayload detailA ghLink).build_config.web_analytics_token = none :=
  constant_payload_fields detailA (mkPayload detailA ghLink) (by decide)

end MoveToCF
